import Mathlib

/-
Shallow embedding of the India-in-World-Headlines bot (src/main.py).

The program is a single class IndiaNewsBot with five operations of interest:
  fetch_articles        : filters raw feed entries whose title matches the
                          regular expression \bIndia\b (case-insensitive) and
                          projects matches into article records;
  analyze_with_ai       : attempts a remote classification call and falls back
                          to fallback_analysis on every failure path;
  fallback_analysis     : deterministic keyword scoring over the lowercased
                          title and summary;
  format_discord_message: renders analyzed items into a Discord embed payload;
  send_to_discord       : posts the payload, success iff HTTP status 204.

Strings are modelled over their character lists; Python slicing s[:n] becomes
take of the first n characters, and str.lower becomes a character-wise
ASCII lowering (the inputs of interest are ASCII). The network is modelled as
an explicit input: an HttpResult value stands for the outcome of the remote
call, and an Option Nat stands for the webhook status (none is a raised
transport error). Console printing is not modelled; it carries no data.
-/

/-- Raw feed entry as delivered by the feed-parsing library: each of the four
fields used by the code may be absent, which the code handles with dict.get
defaults. -/
structure RawEntry where
  title : Option String
  link : Option String
  published : Option String
  summary : Option String
deriving DecidableEq, Repr

/-- Article record built by fetch_articles from a matching raw entry
(src/main.py lines 30 to 36). -/
structure Article where
  source : String
  title : String
  link : String
  published : String
  summary : String
deriving DecidableEq, Repr

/-- Classification verdict: the dict shape produced by fallback_analysis and,
on the remote path, whatever dict the remote reply parsed to. The reasoning
field is optional because the renderer reads it with dict.get and a default,
while sentiment and category are read with plain indexing. -/
structure Verdict where
  sentiment : String
  category : String
  reasoning : Option String
deriving DecidableEq, Repr

/-- Python slicing s[:n]: the first n characters of the string. -/
def strTake (s : String) (n : Nat) : String :=
  String.mk (s.data.take n)

/-- Python str.lower restricted to ASCII: character-wise lowering. -/
def strLower (s : String) : String :=
  String.mk (s.data.map Char.toLower)

/-- Python str.capitalize: first character uppercased, the rest lowercased. -/
def pyCapitalize (s : String) : String :=
  match s.data with
  | [] => ""
  | c :: cs => String.mk (c.toUpper :: cs.map Char.toLower)

/-- Python substring test, the operator w in text: true iff the characters of
w occur contiguously inside text. listPrefixB tests a prefix occurrence. -/
def listPrefixB : List Char → List Char → Bool
  | [], _ => true
  | _ :: _, [] => false
  | a :: as, b :: bs => a == b && listPrefixB as bs

/-- Helper for containsSub: does the needle occur at some position of the
haystack. -/
def listSubB (w : List Char) : List Char → Bool
  | [] => listPrefixB w []
  | c :: cs => listPrefixB w (c :: cs) || listSubB w cs

/-- Python membership test w in text on strings. -/
def containsSub (w text : String) : Bool :=
  listSubB w.data text.data

/-- Word character of the regular expression escape backslash-w, ASCII
fragment: letters, digits and underscore. -/
def isWordChar (c : Char) : Bool :=
  c.isAlphanum || c = '_'

/-- Characters of the keyword India, lowercased. -/
def keywordChars : List Char := ['i', 'n', 'd', 'i', 'a']

/-- Match of the regular expression from src/main.py line 29 at position i of
the character list cs: the five characters starting at i spell India up to
case, the previous character (if any) is not a word character, and the
following character (if any) is not a word character. -/
def wordMatchAt (cs : List Char) (i : Nat) : Bool :=
  ((cs.drop i).take 5).map Char.toLower == keywordChars
    && (i == 0 || !isWordChar (cs.getD (i - 1) ' '))
    && (decide (cs.length ≤ i + 5) || !isWordChar (cs.getD (i + 5) ' '))

/-- Embedding of re.search of the pattern backslash-b India backslash-b with
IGNORECASE over the title: some position matches. -/
def containsIndiaWord (title : String) : Bool :=
  (List.range title.data.length).any (wordMatchAt title.data)

/-- Matcher predicate of fetch_articles (src/main.py lines 26 to 29): the
title, defaulting to the empty string, matches the whole-word regex. -/
def matcherIncludes (e : RawEntry) : Bool :=
  containsIndiaWord (e.title.getD "")

/-- Article construction of fetch_articles (src/main.py lines 30 to 36). -/
def mkArticle (source : String) (e : RawEntry) : Article :=
  { source := source
    title := e.title.getD ""
    link := e.link.getD ""
    published := e.published.getD "Date not available"
    summary := strTake (e.summary.getD "") 300 }

/-- Per-source loop body of fetch_articles (src/main.py lines 25 to 37): keep
each matching entry, in order, projected to an Article. -/
def fetch_articles_source (source : String) : List RawEntry → List Article
  | [] => []
  | e :: es =>
    if matcherIncludes e then
      mkArticle source e :: fetch_articles_source source es
    else
      fetch_articles_source source es

/-- Positive sentiment word list (src/main.py line 97). -/
def positive_words : List String :=
  ["success", "growth", "win", "boost", "improve", "achievement", "celebrates"]

/-- Negative sentiment word list (src/main.py line 98). -/
def negative_words : List String :=
  ["crisis", "conflict", "concern", "attack", "threat", "decline", "warns"]

/-- Python sum of 1 for each listed word occurring in the text
(src/main.py lines 100 to 101): each listed word contributes at most one. -/
def countHits (ws : List String) (text : String) : Nat :=
  (ws.map (fun w => if containsSub w text then 1 else 0)).sum

/-- Count of positive words present in the text. -/
def pos_count (text : String) : Nat := countHits positive_words text

/-- Count of negative words present in the text. -/
def neg_count (text : String) : Nat := countHits negative_words text

/-- Sentiment branch of fallback_analysis (src/main.py lines 103 to 108). -/
def fallbackSentiment (text : String) : String :=
  if pos_count text > neg_count text then "positive"
  else if neg_count text > pos_count text then "negative"
  else "neutral"

/-- Category keyword list for Politics (src/main.py line 111). -/
def politics_words : List String :=
  ["election", "government", "minister", "parliament", "party"]

/-- Category keyword list for Economy (src/main.py line 113). -/
def economy_words : List String :=
  ["economy", "trade", "gdp", "market", "business"]

/-- Category keyword list for Sports (src/main.py line 115). -/
def sports_words : List String :=
  ["cricket", "sport", "match", "olympic"]

/-- Category keyword list for Technology (src/main.py line 117). -/
def technology_words : List String :=
  ["tech", "digital", "ai", "startup"]

/-- Category keyword list for Defense (src/main.py line 119). -/
def defense_words : List String :=
  ["military", "defense", "army", "border"]

/-- Python any of word in text over a word list. -/
def anyIn (ws : List String) (text : String) : Bool :=
  ws.any (fun w => containsSub w text)

/-- Category branch of fallback_analysis (src/main.py lines 111 to 122):
first matching category in source order, defaulting to Other. -/
def fallbackCategory (text : String) : String :=
  if anyIn politics_words text then "Politics"
  else if anyIn economy_words text then "Economy"
  else if anyIn sports_words text then "Sports"
  else if anyIn technology_words text then "Technology"
  else if anyIn defense_words text then "Defense"
  else "Other"

/-- Embedding of fallback_analysis (src/main.py lines 90 to 128): keyword
scoring over the lowercased title, a space, and the lowercased summary. -/
def fallback_analysis (a : Article) : Verdict :=
  let text := strLower a.title ++ " " ++ strLower a.summary
  { sentiment := fallbackSentiment text
    category := fallbackCategory text
    reasoning := some "Keyword-based analysis" }

/-- Outcome of the remote classification call in analyze_with_ai.
error stands for a raised transport or timeout exception. response carries
the HTTP status and, when the status path reads the body, the result of
extracting content[0].text, stripping code fences and running json.loads:
none when any of those steps raises, some v when the reply parsed to a dict
with the verdict fields, whose string values are unconstrained. -/
inductive HttpResult where
  | error : HttpResult
  | response (status : Nat) (parsed : Option Verdict) : HttpResult
deriving DecidableEq, Repr

/-- Embedding of analyze_with_ai (src/main.py lines 45 to 88): on status 200
with a parsed reply, return the reply unvalidated; on any failure (raised
exception, non-200 status, unparseable reply), return fallback_analysis. -/
def analyze_with_ai (a : Article) (r : HttpResult) : Verdict :=
  match r with
  | HttpResult.error => fallback_analysis a
  | HttpResult.response status parsed =>
    if status = 200 then
      match parsed with
      | some v => v
      | none => fallback_analysis a
    else
      fallback_analysis a

/-- One field of a Discord embed. -/
structure EmbedField where
  name : String
  value : String
  isInline : Bool
deriving DecidableEq, Repr

/-- One Discord embed block, with optional parts absent in some blocks. -/
structure Embed where
  title : String
  description : Option String
  url : Option String
  color : Nat
  fields : List EmbedField
  footer : Option String
  timestamp : Option String
deriving DecidableEq, Repr

/-- Pairing of an article with its verdict, as assembled by run
(src/main.py lines 277 to 280). -/
structure AnalyzedItem where
  article : Article
  analysis : Verdict
deriving DecidableEq, Repr

/-- Full webhook payload. -/
structure MessagePayload where
  username : String
  avatar_url : String
  embeds : List Embed
deriving DecidableEq, Repr

/-- Sentiment emoji table of get_emoji (src/main.py lines 132 to 136). -/
def sentimentEmojiTable : List (String × String) :=
  [("positive", "🟢"), ("negative", "🔴"), ("neutral", "🟡")]

/-- Category emoji table of get_emoji (src/main.py lines 138 to 146). -/
def categoryEmojiTable : List (String × String) :=
  [("Politics", "🏛️"), ("Economy", "💰"), ("Sports", "⚽"),
   ("Technology", "💻"), ("Defense", "🛡️"), ("Diplomacy", "🤝"),
   ("Other", "📰")]

/-- Embedding of get_emoji (src/main.py lines 130 to 148). -/
def get_emoji (sentiment category : String) : String × String :=
  ((sentimentEmojiTable.lookup sentiment).getD "⚪",
   (categoryEmojiTable.lookup category).getD "📰")

/-- Sentiment color table of format_discord_message
(src/main.py lines 185 to 189). -/
def colorTable : List (String × Nat) :=
  [("positive", 5763719), ("negative", 15548997), ("neutral", 16776960)]

/-- Empty-state embed of format_discord_message (src/main.py lines 156 to
161); the timestamp argument stands for datetime.utcnow().isoformat(). -/
def emptyStateEmbed (now : String) : Embed :=
  { title := "📰 News Update"
    description := some "No articles mentioning India found in the last check."
    url := none
    color := 3447003
    fields := []
    footer := none
    timestamp := some now }

/-- Header embed of format_discord_message (src/main.py lines 167 to 172). -/
def headerEmbed (now : String) (n : Nat) : Embed :=
  { title := "🌍 What is world saying about India"
    description := some ("Found **" ++ toString n ++ "** articles mentioning India")
    url := none
    color := 16744192
    fields := []
    footer := none
    timestamp := some now }

/-- Per-article embed of format_discord_message (src/main.py lines 175 to
221). -/
def articleEmbed (item : AnalyzedItem) : Embed :=
  let a := item.article
  let an := item.analysis
  let se := (sentimentEmojiTable.lookup an.sentiment).getD "⚪"
  let ce := (categoryEmojiTable.lookup an.category).getD "📰"
  { title := ce ++ " " ++ strTake a.title 200
    description := none
    url := some a.link
    color := (colorTable.lookup an.sentiment).getD 3447003
    fields :=
      [{ name := "📰 Source", value := a.source, isInline := true },
       { name := se ++ " Sentiment", value := pyCapitalize an.sentiment, isInline := true },
       { name := "🏷️ Category", value := an.category, isInline := true },
       { name := "📅 Published", value := strTake a.published 50, isInline := false }]
    footer := some (strTake (an.reasoning.getD "") 100)
    timestamp := none }

/-- Embedding of format_discord_message (src/main.py lines 150 to 229); the
now argument stands for datetime.utcnow().isoformat(). -/
def format_discord_message (now : String) (items : List AnalyzedItem) : MessagePayload :=
  if items.isEmpty then
    { username := "What is World is writng about India?"
      avatar_url := "https://flagcdn.com/w160/in.png"
      embeds := [emptyStateEmbed now] }
  else
    { username := "What is world saying about India"
      avatar_url := "https://flagcdn.com/w160/in.png"
      embeds := headerEmbed now items.length :: items.map articleEmbed }

/-- Embedding of send_to_discord (src/main.py lines 231 to 249): the Option
Nat argument is the delivery outcome, none for a raised transport error and
some status for a completed request. True exactly on status 204. -/
def send_to_discord (payload : MessagePayload) (r : Option Nat) : Bool :=
  match r with
  | none => false
  | some status => status == 204

/-- Auxiliary: the Python sum-of-ones count equals the length of the filtered
word list. -/
theorem countHits_eq_filter_length (ws : List String) (text : String) :
    countHits ws text = (ws.filter (fun w => containsSub w text)).length := by
  induction ws with
  | nil => rfl
  | cons w ws ih =>
    simp only [countHits, List.map_cons, List.sum_cons, List.filter_cons] at *
    by_cases h : containsSub w text <;> simp [h, ih] <;> omega

/-- Auxiliary: each listed word contributes at most one, so the count never
exceeds the length of the word list. -/
theorem countHits_le_length (ws : List String) (text : String) :
    countHits ws text ≤ ws.length := by
  induction ws with
  | nil => exact Nat.le_refl 0
  | cons w ws ih =>
    simp only [countHits, List.map_cons, List.sum_cons, List.length_cons] at *
    by_cases h : containsSub w text <;> simp [h] <;> omega

/-- Priority table of the category branch, in source order. -/
def categoryTable : List (String × List String) :=
  [("Politics", politics_words), ("Economy", economy_words),
   ("Sports", sports_words), ("Technology", technology_words),
   ("Defense", defense_words)]

/-- Claim C1, counterexample: on HTTP status 200 the code returns the parsed
remote reply without validating its fields, so a reply whose sentiment is
ecstatic and whose category is Weather becomes the returned Verdict, with
both values outside the fixed enumerations. -/
theorem remote_verdict_escapes_enums :
    (analyze_with_ai
        { source := "s", title := "t", link := "", published := "", summary := "" }
        (HttpResult.response 200
          (some { sentiment := "ecstatic", category := "Weather",
                  reasoning := some "model reply" }))).sentiment = "ecstatic"
    ∧ ((["positive", "negative", "neutral"].contains "ecstatic") = false)
    ∧ (analyze_with_ai
        { source := "s", title := "t", link := "", published := "", summary := "" }
        (HttpResult.response 200
          (some { sentiment := "ecstatic", category := "Weather",
                  reasoning := some "model reply" }))).category = "Weather"
    ∧ ((["Politics", "Economy", "Sports", "Technology", "Defense", "Diplomacy",
          "Other"].contains "Weather") = false) := by
  exact ⟨rfl, by decide, rfl, by decide⟩

/-- Claim C1, amended: every Verdict produced by the fallback path has its
sentiment and category in the fixed enumerations; the remote-success path
returns the parsed reply unchanged and unvalidated, so its Verdict lies in
the enumerations only when the remote reply does. -/
theorem verdict_enums_amended :
    ∀ a : Article,
      (fallback_analysis a).sentiment ∈ ["positive", "negative", "neutral"]
      ∧ (fallback_analysis a).category ∈
          ["Politics", "Economy", "Sports", "Technology", "Defense",
           "Diplomacy", "Other"]
      ∧ ∀ v : Verdict,
          analyze_with_ai a (HttpResult.response 200 (some v)) = v := by
  intro a
  refine ⟨?_, ?_, fun v => rfl⟩
  · show fallbackSentiment (strLower a.title ++ " " ++ strLower a.summary) ∈ _
    unfold fallbackSentiment
    split_ifs <;> simp
  · show fallbackCategory (strLower a.title ++ " " ++ strLower a.summary) ∈ _
    unfold fallbackCategory
    split_ifs <;> simp

/-- Claim C2: an entry is included iff its title (defaulting to the empty
string) matches the whole-word case-insensitive keyword at some position; the
summary is never consulted; the loop keeps exactly the matching entries in
order; Indiana-style proper substrings do not match, while the keyword in any
letter case does; a summary mentioning India cannot cause inclusion. -/
theorem matcher_whole_word_title_only :
    (∀ e : RawEntry,
      matcherIncludes e = true ↔
        ∃ i, i < (e.title.getD "").data.length
          ∧ wordMatchAt (e.title.getD "").data i = true)
    ∧ (∀ t l p s s',
        matcherIncludes { title := t, link := l, published := p, summary := s }
          = matcherIncludes
              { title := t, link := l, published := p, summary := s' })
    ∧ (∀ source es,
        fetch_articles_source source es
          = (es.filter matcherIncludes).map (mkArticle source))
    ∧ matcherIncludes
        { title := some "Indiana hosts conference", link := none,
          published := none, summary := none } = false
    ∧ matcherIncludes
        { title := some "Visit to indiA announced", link := none,
          published := none, summary := none } = true
    ∧ matcherIncludes
        { title := some "Weather today", link := none, published := none,
          summary := some "India heatwave" } = false := by
  refine ⟨?_, ?_, ?_, by decide, by decide, by decide⟩
  · intro e
    unfold matcherIncludes containsIndiaWord
    constructor
    · intro h
      obtain ⟨i, hmem, hp⟩ := List.any_eq_true.mp h
      exact ⟨i, List.mem_range.mp hmem, hp⟩
    · rintro ⟨i, hi, hp⟩
      exact List.any_eq_true.mpr ⟨i, List.mem_range.mpr hi, hp⟩
  · intro t l p s s'
    rfl
  · intro source es
    induction es with
    | nil => rfl
    | cons e es ih =>
      by_cases h : matcherIncludes e <;>
        simp [fetch_articles_source, List.filter_cons, h, ih]

/-- Claim C3: the classifier is total and every failure of the remote call
(raised transport or timeout error, non-200 status, unparseable reply)
resolves to the fallback verdict; the only other possibility is a parsed
200 reply returned as the verdict. -/
theorem classify_always_returns_fallback_on_failure :
    ∀ (a : Article) (r : HttpResult),
      analyze_with_ai a r = fallback_analysis a
      ∨ ∃ v, r = HttpResult.response 200 (some v) ∧ analyze_with_ai a r = v := by
  intro a r
  cases r with
  | error => exact Or.inl rfl
  | response status parsed =>
    cases parsed with
    | none =>
      by_cases h : status = 200 <;> simp [analyze_with_ai, h]
    | some v =>
      by_cases h : status = 200
      · subst h
        exact Or.inr ⟨v, rfl, rfl⟩
      · exact Or.inl (by simp [analyze_with_ai, h])

/-- Claim C4: the fallback sentiment is determined by comparing how many
positive-list words occur in the lowercased title-space-summary text against
how many negative-list words occur there, positive when the positive count
is larger, negative when the negative count is larger, neutral otherwise;
and it depends only on the title and summary of the article. -/
theorem fallback_sentiment_count_comparison :
    (∀ a : Article,
      (fallback_analysis a).sentiment =
        (if (negative_words.filter
              (fun w => containsSub w
                (strLower a.title ++ " " ++ strLower a.summary))).length
            < (positive_words.filter
              (fun w => containsSub w
                (strLower a.title ++ " " ++ strLower a.summary))).length
         then "positive"
         else if (positive_words.filter
              (fun w => containsSub w
                (strLower a.title ++ " " ++ strLower a.summary))).length
            < (negative_words.filter
              (fun w => containsSub w
                (strLower a.title ++ " " ++ strLower a.summary))).length
         then "negative"
         else "neutral"))
    ∧ (∀ source source' lk lk' pb pb' t s : String,
        fallback_analysis
            { source := source, title := t, link := lk, published := pb,
              summary := s }
          = fallback_analysis
              { source := source', title := t, link := lk', published := pb',
                summary := s }) := by
  constructor
  · intro a
    show fallbackSentiment (strLower a.title ++ " " ++ strLower a.summary) = _
    unfold fallbackSentiment
    rw [pos_count, neg_count, countHits_eq_filter_length,
        countHits_eq_filter_length]
  · intro source source' lk lk' pb pb' t s
    rfl

/-- Claim C5: the fallback category is the first entry of the fixed priority
table (Politics, Economy, Sports, Technology, Defense) some keyword of which
occurs in the lowercased text, and Other when no entry matches. -/
theorem fallback_category_priority_order :
    ∀ a : Article,
      (fallback_analysis a).category =
        (match categoryTable.find?
            (fun e => anyIn e.2 (strLower a.title ++ " " ++ strLower a.summary))
         with
         | some e => e.1
         | none => "Other") := by
  intro a
  show fallbackCategory (strLower a.title ++ " " ++ strLower a.summary) = _
  generalize strLower a.title ++ " " ++ strLower a.summary = text
  unfold fallbackCategory categoryTable
  by_cases h1 : anyIn politics_words text <;>
    by_cases h2 : anyIn economy_words text <;>
    by_cases h3 : anyIn sports_words text <;>
    by_cases h4 : anyIn technology_words text <;>
    by_cases h5 : anyIn defense_words text <;>
    simp [List.find?, h1, h2, h3, h4, h5]

/-- Claim C6: on the empty list the renderer produces exactly the one
empty-state block carrying the fixed description; on a nonempty list it
produces the header block followed by one block per item, in input order,
for a total of N plus one blocks. -/
theorem renderer_block_structure :
    ∀ (now : String) (x : AnalyzedItem) (xs : List AnalyzedItem),
      (format_discord_message now []).embeds = [emptyStateEmbed now]
      ∧ (emptyStateEmbed now).description
          = some "No articles mentioning India found in the last check."
      ∧ (format_discord_message now []).embeds.length = 1
      ∧ (format_discord_message now (x :: xs)).embeds
          = headerEmbed now (x :: xs).length :: (x :: xs).map articleEmbed
      ∧ (format_discord_message now (x :: xs)).embeds.length
          = (x :: xs).length + 1 := by
  intro now x xs
  refine ⟨rfl, rfl, rfl, rfl, ?_⟩
  show (headerEmbed now (x :: xs).length :: (x :: xs).map articleEmbed).length
      = (x :: xs).length + 1
  simp

/-- Claim C7: the publisher returns true exactly when the delivery completed
with status 204; a raised transport error (modelled as none) returns false. -/
theorem publisher_success_iff_204 :
    ∀ (payload : MessagePayload) (r : Option Nat),
      (send_to_discord payload r = true ↔ r = some 204)
      ∧ send_to_discord payload none = false := by
  intro payload r
  refine ⟨?_, rfl⟩
  cases r with
  | none => simp [send_to_discord]
  | some status => simp [send_to_discord]

/-- Claim C8: the entry titled India wins cricket World Cup with summary
stadium celebrates historic win is included by the matcher, and the fallback
classifier on the projected article yields sentiment positive and category
Sports. -/
theorem scenario_india_cricket :
    matcherIncludes
        { title := some "India wins cricket World Cup",
          link := some "https://example.org/a",
          published := some "Mon, 01 Jan 2024",
          summary := some "stadium celebrates historic win" } = true
    ∧ (fallback_analysis
        (mkArticle "The Guardian"
          { title := some "India wins cricket World Cup",
            link := some "https://example.org/a",
            published := some "Mon, 01 Jan 2024",
            summary := some "stadium celebrates historic win" })).sentiment
        = "positive"
    ∧ (fallback_analysis
        (mkArticle "The Guardian"
          { title := some "India wins cricket World Cup",
            link := some "https://example.org/a",
            published := some "Mon, 01 Jan 2024",
            summary := some "stadium celebrates historic win" })).category
        = "Sports" := by
  exact ⟨by decide, by decide, by decide⟩

/-- Claim C9: the fallback keyword tests are plain substring containment
with each listed word counted at most once: the title He said the unwinding
continues contains win only inside unwinding and ai only inside said, yet is
classified positive and Technology; a text repeating win three times still
counts it once; and the positive count never exceeds the length of the
positive word list. -/
theorem fallback_substring_not_whole_word :
    (fallback_analysis
        { source := "s", title := "He said the unwinding continues",
          link := "", published := "", summary := "" }).sentiment = "positive"
    ∧ (fallback_analysis
        { source := "s", title := "He said the unwinding continues",
          link := "", published := "", summary := "" }).category = "Technology"
    ∧ pos_count "win win win" = 1
    ∧ (∀ text : String, pos_count text ≤ positive_words.length) := by
  refine ⟨by decide, by decide, by decide, ?_⟩
  intro text
  exact countHits_le_length positive_words text

/-- Claim C10: the fallback classifier draws its category from the six
values Politics, Economy, Sports, Technology, Defense and Other, and in
particular never returns Diplomacy even though the full enumeration lists
it. -/
theorem fallback_category_no_diplomacy :
    ∀ a : Article,
      (fallback_analysis a).category ∈
          ["Politics", "Economy", "Sports", "Technology", "Defense", "Other"]
      ∧ (((fallback_analysis a).category == "Diplomacy") = false) := by
  intro a
  have h : (fallback_analysis a).category
      = fallbackCategory (strLower a.title ++ " " ++ strLower a.summary) := rfl
  rw [h]
  unfold fallbackCategory
  split_ifs <;> exact ⟨by decide, by decide⟩
